import Mathlib

/-!
Verification of the gtp_rust GTP (GPRS Tunneling Protocol) codec and listener
library against its design specification.

The Rust sources are shallowly embedded: bytes are `Nat` (each value kept below
256 by explicit masking exactly where the source masks), buffers are `List Nat`,
u16/u32/u40 wire fields are read and written big-endian with explicit `% 2^w`
where the source relies on fixed-width types, and fallible Rust code is mapped
to `Option`/`Except`.  Rust code that can `panic` (the v1 `From<u8>`
conversions panic on unknown discriminators, and slice indexing panics out of
bounds) is embedded in the `Outcome` monad below, which distinguishes a normal
return from a panic, so that "returns None" and "panics" are distinguishable
propositions.
-/

/-- Result of running a piece of Rust code that may panic or loop: `ok a` is a
normal return, `panicked` models a Rust panic (unknown-discriminator `From`
conversions, out-of-bounds indexing), `hung` models non-termination of the
extension-header decode loop (used only as fuel exhaustion; never reached on
the concrete inputs examined here). -/
inductive Outcome (α : Type) where
  | ok (a : α)
  | panicked
  | hung
deriving DecidableEq, Repr

namespace Outcome

def bind {α β : Type} : Outcome α → (α → Outcome β) → Outcome β
  | ok a, f => f a
  | panicked, _ => panicked
  | hung, _ => hung

instance : Monad Outcome where
  pure := ok
  bind := bind

end Outcome

instance {ε α : Type} [DecidableEq ε] [DecidableEq α] : DecidableEq (Except ε α) :=
  fun x y =>
    match x, y with
    | .ok a, .ok b =>
      if h : a = b then .isTrue (by rw [h])
      else .isFalse (by intro hh; injection hh; contradiction)
    | .error a, .error b =>
      if h : a = b then .isTrue (by rw [h])
      else .isFalse (by intro hh; injection hh; contradiction)
    | .ok _, .error _ => .isFalse (by intro hh; exact Except.noConfusion hh)
    | .error _, .ok _ => .isFalse (by intro hh; exact Except.noConfusion hh)

/-- Big-endian byte-pair for a u16 value (`NetworkEndian::write_u16`). -/
def u16be (n : Nat) : List Nat := [n / 256 % 256, n % 256]

/-- Big-endian four bytes for a u32 value (`NetworkEndian::write_u32`). -/
def u32be (n : Nat) : List Nat :=
  [n / 2 ^ 24 % 256, n / 2 ^ 16 % 256, n / 256 % 256, n % 256]

/-- Read one byte of a buffer; Rust indexing panics when out of bounds. -/
def byteAt (b : List Nat) (i : Nat) : Outcome Nat :=
  if i < b.length then .ok (b.getD i 0) else .panicked

/-- Read a big-endian u16 at offset `i` (`NetworkEndian::read_u16`); the slice
construction panics when fewer than two bytes remain. -/
def readU16 (b : List Nat) (i : Nat) : Outcome Nat :=
  if i + 2 ≤ b.length then .ok (b.getD i 0 * 256 + b.getD (i + 1) 0) else .panicked

/-- Read a big-endian u32 at offset `i` (`NetworkEndian::read_u32`). -/
def readU32 (b : List Nat) (i : Nat) : Outcome Nat :=
  if i + 4 ≤ b.length then
    .ok (b.getD i 0 * 2 ^ 24 + b.getD (i + 1) 0 * 2 ^ 16 + b.getD (i + 2) 0 * 256 +
      b.getD (i + 3) 0)
  else .panicked

namespace GtpV2

/-- GTPv2 message types, src/gtp_v2/packet/messages.rs. -/
inductive MessageType where
  | EchoRequest
  | EchoResponse
  | CreateSessionRequest
  | CreateSessionResponse
deriving DecidableEq, Repr

/-- Wire discriminators of the v2 message types (the enum's explicit values). -/
def MessageType.toU8 : MessageType → Nat
  | .EchoRequest => 1
  | .EchoResponse => 2
  | .CreateSessionRequest => 32
  | .CreateSessionResponse => 33

/-- Embedding of `impl TryFrom<u8> for MessageType` (v2), including the arm
`33 => Ok(MessageType::CreateSessionRequest)` exactly as in the source. -/
def MessageType.try_from (value : Nat) : Except String MessageType :=
  match value with
  | 1 => .ok .EchoRequest
  | 2 => .ok .EchoResponse
  | 32 => .ok .CreateSessionRequest
  | 33 => .ok .CreateSessionRequest
  | _ => .error s!"Unsupported Message type ({value})"

/-- GTPv2 information element types,
src/gtp_v2/packet/messages/information_elements.rs. -/
inductive InformationElementType where
  | Recovery
  | RATType
  | FTEID
  | APN
  | BearerContext
  | EBI
  | BearerQoS
  | IMSI
  | PDNType
  | PDNAddressAllocation
  | MSISDN
  | UserLocationInformation
  | MEI
  | ServingNetwork
  | SelectionMode
  | APNRestriction
  | AMBR
  | UETimeZone
  | ChargingCharacteristics
  | Cause
deriving DecidableEq, Repr

/-- Wire discriminators of the v2 IE types (the enum's explicit values,
in particular `MEI = 75` and `UserLocationInformation = 86`). -/
def InformationElementType.toU8 : InformationElementType → Nat
  | .Recovery => 3
  | .RATType => 82
  | .FTEID => 87
  | .APN => 71
  | .BearerContext => 93
  | .EBI => 73
  | .BearerQoS => 80
  | .IMSI => 1
  | .PDNType => 99
  | .PDNAddressAllocation => 79
  | .MSISDN => 76
  | .UserLocationInformation => 86
  | .MEI => 75
  | .ServingNetwork => 83
  | .SelectionMode => 128
  | .APNRestriction => 127
  | .AMBR => 72
  | .UETimeZone => 114
  | .ChargingCharacteristics => 95
  | .Cause => 2

/-- Embedding of `impl TryFrom<u8> for InformationElementType` (v2), including
the arm `75 => Ok(InformationElementType::UserLocationInformation)` exactly as
in the source. -/
def InformationElementType.try_from (value : Nat) : Except String InformationElementType :=
  match value with
  | 3 => .ok .Recovery
  | 82 => .ok .RATType
  | 87 => .ok .FTEID
  | 71 => .ok .APN
  | 93 => .ok .BearerContext
  | 73 => .ok .EBI
  | 80 => .ok .BearerQoS
  | 1 => .ok .IMSI
  | 99 => .ok .PDNType
  | 79 => .ok .PDNAddressAllocation
  | 76 => .ok .MSISDN
  | 86 => .ok .UserLocationInformation
  | 75 => .ok .UserLocationInformation
  | 83 => .ok .ServingNetwork
  | 128 => .ok .SelectionMode
  | 127 => .ok .APNRestriction
  | 72 => .ok .AMBR
  | 114 => .ok .UETimeZone
  | 95 => .ok .ChargingCharacteristics
  | 2 => .ok .Cause
  | _ => .error s!"Unsupported IE type ({value})"

/-- Dispatch projection of `InformationElement::parse` (v2): the parser reads
the first byte, converts it with `TryFrom`, and matches on the resulting
`InformationElementType` to choose the variant decoder; this function returns
the variant decoder that is chosen.  Out-of-bounds read of `buffer[0]` panics
in Rust; an unknown type byte makes the parser return `None` (embedded as
`.ok (.error …)`). -/
def InformationElement.parseDispatch (buffer : List Nat) :
    Outcome (Except String InformationElementType) := do
  let ie_type ← byteAt buffer 0
  return InformationElementType.try_from ie_type

/-- Bearer QoS IE state,
src/gtp_v2/packet/messages/information_elements/bearer_qos.rs.  The Rust field
`instance` is called `inst` here because `instance` is a Lean keyword. -/
structure BearerQoS where
  inst : Nat
  pci : Bool
  pl : Nat
  pvi : Bool
  qci : Nat
  max_ul_bitrate : Nat
  max_dl_bitrate : Nat
  guaranteed_ul_bitrate : Nat
  guaranteed_dl_bitrate : Nat
deriving DecidableEq, Repr

namespace BearerQoS

/-- Embedding of `bearer_qos::InformationElement::new`, with the validation
checks in source order. -/
def new (pci : Bool) (pl : Nat) (pvi : Bool) (qci : Nat)
    (max_ul_bitrate max_dl_bitrate guaranteed_ul_bitrate guaranteed_dl_bitrate : Nat)
    (inst : Nat) : Except String BearerQoS :=
  if inst > 0xF then
    .error s!"Instance is > 0xF {inst}"
  else if pl > 0xF then
    .error s!"PL is > 0xF {pl}"
  else if max_ul_bitrate > 10000000 then
    .error s!"Max UL Bitrate is > 10,000,000 {max_ul_bitrate}"
  else if max_dl_bitrate > 10000000 then
    .error s!"Max DL Bitrate is > 10,000,000 {max_dl_bitrate}"
  else if guaranteed_ul_bitrate > 10000000 then
    .error s!"Guaranteed UL Bitrate is > 10,000,000 {guaranteed_ul_bitrate}"
  else if guaranteed_dl_bitrate > 10000000 then
    .error s!"Guaranteed DL Bitrate is > 10,000,000 {guaranteed_dl_bitrate}"
  else
    .ok { pci, pl, pvi, qci, max_ul_bitrate, max_dl_bitrate,
          guaranteed_ul_bitrate, guaranteed_dl_bitrate, inst }

/-- Embedding of `bearer_qos` `generate_flags`.  The Rust expression is
`(if self.pci {0} else {1} << 6) | ((self.pl & 0xF) << 2) | (if self.pvi {0} else {1})`;
by Rust precedence the shift binds inside the `else` branch, so the octet is
`0` or `64` from the PCI conditional, OR-ed with the PL and PVI parts. -/
def generate_flags (ie : BearerQoS) : Nat :=
  (if ie.pci then 0 else 1 <<< 6) ||| ((ie.pl &&& 0xF) <<< 2) ||| (if ie.pvi then 0 else 1)

/-- Embedding of `bearer_qos` `parse_flags`: pci is bit 6, pl bits 2..5, pvi
bit 0, each read directly from the octet. -/
def parse_flags (flags : Nat) : Bool × Nat × Bool :=
  (((flags >>> 6) &&& 0b1) == 1, ((flags >>> 2) &&& 0xF, (flags &&& 0b1) == 1))

/-- Embedding of `bearer_qos` `set_instance`.  Rust mutates `&mut self` and
returns a `Result`; this returns the post-state together with the result. -/
def set_instance (ie : BearerQoS) (inst : Nat) : BearerQoS × Except String Nat :=
  if inst > 0xF then
    (ie, .error s!"Instance is > 0xF {inst}")
  else
    ({ ie with inst := inst }, .ok inst)

end BearerQoS

/-- IMSI IE state, src/gtp_v2/packet/messages/information_elements/imsi.rs:
an instance nibble plus fifteen decimal digits.  The Rust field `instance` is
called `inst` here because `instance` is a Lean keyword; the `[u8; 15]` digit
array is a `List Nat`. -/
structure Imsi where
  inst : Nat
  imsi : List Nat
deriving DecidableEq, Repr

namespace Imsi

/-- Embedding of `imsi::InformationElement::new`.  The Rust constructor takes
a `&str` and parses each character as a decimal digit; the string is embedded
as its list of digit values, and a character that is not a decimal digit is a
digit value above 9. -/
def new (digits : List Nat) (inst : Nat) : Except String Imsi :=
  if inst > 0xF then
    .error s!"Instance is > 0xF {inst}"
  else if digits.length ≠ 15 then
    .error "IMSI is not the correct number of digits"
  else if digits.any (fun d => d > 9) then
    .error "Could not parse IMSI"
  else
    .ok { imsi := digits, inst }

/-- Embedding of `generate_tbcd_imsi`: digits are packed two per octet, the
earlier digit in the low nibble, and an unpaired final digit gets 0xF in the
high nibble.  The source fills a `[0xFF; 8]` array with exactly this. -/
def tbcdPack : List Nat → List Nat
  | [] => []
  | [d] => [(d &&& 0xF) ||| 0xF0]
  | d1 :: d2 :: rest => ((d1 &&& 0xF) ||| ((d2 &&& 0xF) <<< 4)) :: tbcdPack rest

/-- Embedding of `generate_tbcd_imsi` applied to the stored digits. -/
def generate_tbcd_imsi (ie : Imsi) : List Nat := tbcdPack ie.imsi

/-- Embedding of the IMSI IE `generate`: type octet 1, u16 length field
`length() - 4 = 8`, the spare/instance octet, then the eight TBCD octets. -/
def generate (ie : Imsi) : List Nat :=
  [GtpV2.InformationElementType.IMSI.toU8] ++ u16be 8 ++ [ie.inst &&& 0xF] ++
    ie.generate_tbcd_imsi

/-- Write into the fixed `[0u8; 15]` digit array; Rust panics when the index
is out of bounds. -/
def setDigit (a : List Nat) (i v : Nat) : Outcome (List Nat) :=
  if i < a.length then .ok (a.set i v) else .panicked

/-- One step per body octet of the IMSI `parse` while-loop: the low nibble is
the next digit, the high nibble is the one after unless it is the 0xF filler;
the digit index advances by two either way. -/
def parseLoop (buffer : List Nat) (stop : Nat) :
    Nat → Nat → Nat → List Nat → Outcome (List Nat × Nat)
  | 0, _, _, _ => .hung
  | fuel + 1, pos, i, a =>
    if pos < stop then do
      let octet ← byteAt buffer pos
      let first_digit := octet &&& 0xF
      let second_digit := (octet >>> 4) &&& 0xF
      let a ← setDigit a i first_digit
      let a ← if second_digit ≠ 0xF then setDigit a (i + 1) second_digit else pure a
      parseLoop buffer stop fuel (pos + 1) (i + 2) a
    else
      .ok (a, pos)

/-- Embedding of the IMSI IE `parse`: type octet, u16 length, spare/instance
octet, then the while-loop over the TBCD body up to `length + 4`. -/
def parse (buffer : List Nat) : Outcome (Option (Imsi × Nat)) := do
  let _ie_type ← byteAt buffer 0
  let length ← readU16 buffer 1
  let instByte ← byteAt buffer 3
  let inst := instByte &&& 0xF
  let (digits, pos) ← parseLoop buffer (length + 4) (length + 1) 4 0 (List.replicate 15 0)
  return some ({ imsi := digits, inst }, pos)

/-- Embedding of the IMSI IE `set_instance`, returning the post-state together
with the `Result`. -/
def set_instance (ie : Imsi) (inst : Nat) : Imsi × Except String Nat :=
  if inst > 0xF then
    (ie, .error s!"Instance is > 0xF {inst}")
  else
    ({ ie with inst := inst }, .ok inst)

end Imsi

end GtpV2

namespace GtpV1

/-- GTPv1 message types, src/gtp_v1/packet/messages.rs. -/
inductive MessageType where
  | EchoRequest
  | EchoResponse
  | CreatePDPContextRequest
  | GPDU
deriving DecidableEq, Repr

/-- Wire discriminators of the v1 message types. -/
def MessageType.toU8 : MessageType → Nat
  | .EchoRequest => 1
  | .EchoResponse => 2
  | .CreatePDPContextRequest => 16
  | .GPDU => 255

/-- Embedding of `impl From<u8> for MessageType` (v1): the catch-all arm is
`panic!(format!("Unsupported Message Type ({})", v))`, so an unknown byte is a
panic, not a `None`. -/
def MessageType.from_u8 (v : Nat) : Outcome MessageType :=
  match v with
  | 1 => .ok .EchoRequest
  | 2 => .ok .EchoResponse
  | 16 => .ok .CreatePDPContextRequest
  | 255 => .ok .GPDU
  | _ => .panicked

/-- GTPv1 extension header types,
src/gtp_v1/packet/header/extension_headers.rs. -/
inductive ExtensionHeaderType where
  | NoMore
  | MbmsSi
  | MsInfoChange
  | UDPPort
  | LongPdcpPduNumber
  | PdcpPduNum
  | SuspendReq
  | SuspendRes
deriving DecidableEq, Repr

/-- Wire discriminators of the v1 extension header types. -/
def ExtensionHeaderType.toU8 : ExtensionHeaderType → Nat
  | .NoMore => 0x00
  | .MbmsSi => 0x01
  | .MsInfoChange => 0x02
  | .UDPPort => 0x40
  | .LongPdcpPduNumber => 0x82
  | .PdcpPduNum => 0xC0
  | .SuspendReq => 0xC1
  | .SuspendRes => 0xC2

/-- Embedding of `impl From<u8> for ExtensionHeaderType`: the catch-all arm is
`panic!(format!("Unsupported Extension Header ({})", v))`.  The source's match
arm for `0b1000_0010 => LongPdcpPduNumber` is commented out, so byte 0x82 also
falls through to the panic. -/
def ExtensionHeaderType.from_u8 (v : Nat) : Outcome ExtensionHeaderType :=
  match v with
  | 0x00 => .ok .NoMore
  | 0x01 => .ok .MbmsSi
  | 0x02 => .ok .MsInfoChange
  | 0x40 => .ok .UDPPort
  | 0xC0 => .ok .PdcpPduNum
  | 0xC1 => .ok .SuspendReq
  | 0xC2 => .ok .SuspendRes
  | _ => .panicked

/-- GTPv1 extension headers: one constructor per variant of the Rust
`ExtensionHeader` enum, each carrying its payload field (if any) plus the
trailing `next_extension_header_type` octet.  The `mbms_support_indication`,
`suspend_request` and `suspend_response` modules are declared in
extension_headers.rs but their files are absent from src; their state (no
payload, a `next` field) and 4-octet wire form `0x01, 0xFF, 0xFF, next` are
modelled from the spec (scenario S3 and the extension-header catalog), matching
the in-src `ms_info_change_reporting_support_indication` module. -/
inductive ExtensionHeader where
  | MbmsSi (next : ExtensionHeaderType)
  | MsInfoChange (next : ExtensionHeaderType)
  | PdcpPduNum (n : Nat) (next : ExtensionHeaderType)
  | SuspendReq (next : ExtensionHeaderType)
  | SuspendRes (next : ExtensionHeaderType)
  | UDPPort (p : Nat) (next : ExtensionHeaderType)
  | LongPdcpPduNumber (n : Nat) (next : ExtensionHeaderType)
deriving DecidableEq, Repr

namespace ExtensionHeader

/-- Dispatch of `extension_header_type()` over the variants. -/
def extension_header_type : ExtensionHeader → ExtensionHeaderType
  | .MbmsSi _ => .MbmsSi
  | .MsInfoChange _ => .MsInfoChange
  | .PdcpPduNum _ _ => .PdcpPduNum
  | .SuspendReq _ => .SuspendReq
  | .SuspendRes _ => .SuspendRes
  | .UDPPort _ _ => .UDPPort
  | .LongPdcpPduNumber _ _ => .LongPdcpPduNumber

/-- Dispatch of `set_next_extension_header_type` over the variants. -/
def set_next_extension_header_type (eh : ExtensionHeader) (t : ExtensionHeaderType) :
    ExtensionHeader :=
  match eh with
  | .MbmsSi _ => .MbmsSi t
  | .MsInfoChange _ => .MsInfoChange t
  | .PdcpPduNum n _ => .PdcpPduNum n t
  | .SuspendReq _ => .SuspendReq t
  | .SuspendRes _ => .SuspendRes t
  | .UDPPort p _ => .UDPPort p t
  | .LongPdcpPduNumber n _ => .LongPdcpPduNumber n t

/-- Dispatch of `next_extension_header_type()` over the variants. -/
def next_extension_header_type : ExtensionHeader → ExtensionHeaderType
  | .MbmsSi next => next
  | .MsInfoChange next => next
  | .PdcpPduNum _ next => next
  | .SuspendReq next => next
  | .SuspendRes next => next
  | .UDPPort _ next => next
  | .LongPdcpPduNumber _ next => next

/-- Dispatch of `length()`: every variant is 4 octets except the long PDCP PDU
number, which is 8. -/
def length : ExtensionHeader → Nat
  | .LongPdcpPduNumber _ _ => 8
  | _ => 4

/-- Dispatch of `generate`: each variant writes `length()/4`, its body, and
the next-type octet.  `PdcpPduNum` and `UDPPort` write their u16 big-endian;
`LongPdcpPduNumber` writes a 24-bit value and three padding octets. -/
def generate : ExtensionHeader → List Nat
  | .MbmsSi next => [0x01, 0xFF, 0xFF, next.toU8]
  | .MsInfoChange next => [0x01, 0xFF, 0xFF, next.toU8]
  | .PdcpPduNum n next => [0x01] ++ u16be n ++ [next.toU8]
  | .SuspendReq next => [0x01, 0xFF, 0xFF, next.toU8]
  | .SuspendRes next => [0x01, 0xFF, 0xFF, next.toU8]
  | .UDPPort p next => [0x01] ++ u16be p ++ [next.toU8]
  | .LongPdcpPduNumber n next =>
      [0x02, n / 2 ^ 16 % 256, n / 256 % 256, n % 256, 0x00, 0x00, 0x00, next.toU8]

/-- Raw value of the on-wire length field each variant writes as its first
octet: `length() / 4`. -/
def rawLen (eh : ExtensionHeader) : Nat := eh.length / 4

/-- Kinds used to pick which variant's `new()` constructor to push (every
`new()` sets `next_extension_header_type` to NoMore and zeroes payloads). -/
inductive Kind where
  | MbmsSi
  | MsInfoChange
  | PdcpPduNum
  | SuspendReq
  | SuspendRes
  | UDPPort
  | LongPdcpPduNumber
deriving DecidableEq, Repr

/-- Embedding of the per-variant `new()` constructors: payload fields start at
zero and the next-type octet at NoMore. -/
def new : Kind → ExtensionHeader
  | .MbmsSi => .MbmsSi .NoMore
  | .MsInfoChange => .MsInfoChange .NoMore
  | .PdcpPduNum => .PdcpPduNum 0 .NoMore
  | .SuspendReq => .SuspendReq .NoMore
  | .SuspendRes => .SuspendRes .NoMore
  | .UDPPort => .UDPPort 0 .NoMore
  | .LongPdcpPduNumber => .LongPdcpPduNumber 0 .NoMore

/-- Parse of the 4-octet body-less extension headers (`ms_info_change` in src;
`mbms_support_indication`, `suspend_request`, `suspend_response` modelled from
the spec identically): read the length octet, skip two padding octets, read the
next-type octet through `From<u8>` (which panics on an unknown byte). -/
def parseFlat (mk : ExtensionHeaderType → ExtensionHeader) (buffer : List Nat) :
    Outcome (ExtensionHeader × Nat) := do
  let _length ← byteAt buffer 0
  let nextByte ← byteAt buffer 3
  let next ← ExtensionHeaderType.from_u8 nextByte
  return (mk next, 4)

/-- Embedding of `pdcp_pdu_number::ExtensionHeader::parse`. -/
def parsePdcpPduNum (buffer : List Nat) : Outcome (ExtensionHeader × Nat) := do
  let _length ← byteAt buffer 0
  let n ← readU16 buffer 1
  let nextByte ← byteAt buffer 3
  let next ← ExtensionHeaderType.from_u8 nextByte
  return (.PdcpPduNum n next, 4)

/-- Embedding of `udp_port::ExtensionHeader::parse`. -/
def parseUdpPort (buffer : List Nat) : Outcome (ExtensionHeader × Nat) := do
  let _length ← byteAt buffer 0
  let p ← readU16 buffer 1
  let nextByte ← byteAt buffer 3
  let next ← ExtensionHeaderType.from_u8 nextByte
  return (.UDPPort p next, 4)

end ExtensionHeader

/-- GTPv1 header state, src/gtp_v1/packet/header.rs.  All u8/u16/u32 fields
are `Nat`s; the flag fields hold 0 or 1 exactly as in the source. -/
structure Header where
  version : Nat
  message_type : MessageType
  pt : Nat
  e : Nat
  s : Nat
  pn : Nat
  teid : Nat
  payload_length : Nat
  sequence_number : Nat
  n_pdu_number : Nat
  extension_headers : List ExtensionHeader
deriving DecidableEq, Repr

namespace Header

/-- Embedding of `Header::new`. -/
def new (message_type : MessageType) : Header :=
  { version := 1, message_type, payload_length := 0, pt := 1, e := 0, s := 0,
    pn := 0, teid := 0, sequence_number := 0, n_pdu_number := 0,
    extension_headers := [] }

/-- Embedding of `Header::length`: payload length plus two octets when S is
set, one when PN is set, one when E is set, plus each extension header's
`length()` (its full octet count). -/
def length (h : Header) : Nat :=
  h.payload_length +
    (if h.s = 1 then 2 else 0) +
    (if h.pn = 1 then 1 else 0) +
    (if h.e = 1 then 1 else 0) +
    (h.extension_headers.map ExtensionHeader.length).sum

/-- Modify the last element of a list (the `self.extension_headers[len-1]`
updates in push/pop). -/
def modifyLast (f : ExtensionHeader → ExtensionHeader) :
    List ExtensionHeader → List ExtensionHeader
  | [] => []
  | [x] => [f x]
  | x :: xs => x :: modifyLast f xs

/-- Embedding of `Header::push_extension_header`: link the previous tail's
next-type octet to the new extension's type, set the E flag, append. -/
def push_extension_header (h : Header) (eh : ExtensionHeader) : Header :=
  { h with
    extension_headers :=
      modifyLast (fun tail =>
          tail.set_next_extension_header_type eh.extension_header_type)
        h.extension_headers ++ [eh],
    e := 1 }

/-- Embedding of `Header::pop_extension_header`: remove the tail; when one was
removed, the new tail's next-type octet becomes NoMore, or the E flag is
cleared when the chain became empty. -/
def pop_extension_header (h : Header) : Header × Option ExtensionHeader :=
  match h.extension_headers.getLast? with
  | none => (h, none)
  | some tail =>
    let rest := h.extension_headers.dropLast
    if rest.length > 0 then
      ({ h with extension_headers :=
          modifyLast (fun x => x.set_next_extension_header_type .NoMore) rest },
        some tail)
    else
      ({ h with extension_headers := rest, e := 0 }, some tail)

/-- Embedding of `Header::set_payload_length` (the field is a u16). -/
def set_payload_length (h : Header) (payload_length : Nat) : Header :=
  { h with payload_length := payload_length % 2 ^ 16 }

/-- Embedding of `Header::generate_flags`. -/
def generate_flags (h : Header) : Nat :=
  (h.version <<< 5) ||| (h.pt <<< 4) ||| (h.e <<< 2) ||| (h.s <<< 1) ||| h.pn

/-- Embedding of `Header::generate`: the two mandatory flag/type octets, the
u16 length field (recomputed by `length()`), the u32 TEID, then the optional
sequence number, N-PDU number, first-extension-type octet and extension chain
gated by their flags.  The returned `usize` is the byte count, i.e. the length
of this list. -/
def generate (h : Header) : List Nat :=
  [h.generate_flags, h.message_type.toU8] ++ u16be h.length ++ u32be h.teid ++
    (if h.s = 1 then u16be h.sequence_number else []) ++
    (if h.pn = 1 then [h.n_pdu_number] else []) ++
    (if h.e = 1 then
      (match h.extension_headers with
       | [] => [ExtensionHeaderType.NoMore.toU8]
       | x :: _ => [x.extension_header_type.toU8]) ++
        (h.extension_headers.map ExtensionHeader.generate).flatten
    else [])

/-- Embedding of `Header::parse_flags`. -/
def parse_flags (flags : Nat) : Nat × Nat × Nat × Nat × Nat :=
  ((flags >>> 5) &&& 0b111, (flags >>> 4) &&& 0b1, (flags >>> 2) &&& 0b1,
    (flags >>> 1) &&& 0b1, flags &&& 0b1)

/-- Fuelled embedding of the extension-chain decode loop inside
`Header::parse`: convert the pending next-type byte (panicking on an unknown
one), stop at NoMore, otherwise run the variant parser on `&buffer[pos..]`,
push the parsed extension and continue with its next-type octet.  The source's
`LongPdcpPduNumber` arm really calls the MbmsSi parser and pushes an MbmsSi
variant, and is kept that way (it is unreachable because `From<u8>` panics on
0x82 first).  Each iteration consumes at least four bytes, so fuel
`buffer.length + 1` can never run out; `hung` stands for the source's
infinite loop should a variant parser return `None`, which none does. -/
def parseExtLoop (buffer : List Nat) :
    Nat → Nat → Header → Nat → Outcome (Header × Nat)
  | 0, _, _, _ => .hung
  | fuel + 1, nextByte, h, pos => do
    let t ← ExtensionHeaderType.from_u8 nextByte
    match t with
    | .NoMore => return (h, pos)
    | .MbmsSi => do
        let (eh, ehPos) ← ExtensionHeader.parseFlat .MbmsSi (buffer.drop pos)
        parseExtLoop buffer fuel eh.next_extension_header_type.toU8
          (h.push_extension_header eh) (pos + ehPos)
    | .LongPdcpPduNumber => do
        let (eh, ehPos) ← ExtensionHeader.parseFlat .MbmsSi (buffer.drop pos)
        parseExtLoop buffer fuel eh.next_extension_header_type.toU8
          (h.push_extension_header eh) (pos + ehPos)
    | .MsInfoChange => do
        let (eh, ehPos) ← ExtensionHeader.parseFlat .MsInfoChange (buffer.drop pos)
        parseExtLoop buffer fuel eh.next_extension_header_type.toU8
          (h.push_extension_header eh) (pos + ehPos)
    | .PdcpPduNum => do
        let (eh, ehPos) ← ExtensionHeader.parsePdcpPduNum (buffer.drop pos)
        parseExtLoop buffer fuel eh.next_extension_header_type.toU8
          (h.push_extension_header eh) (pos + ehPos)
    | .SuspendReq => do
        let (eh, ehPos) ← ExtensionHeader.parseFlat .SuspendReq (buffer.drop pos)
        parseExtLoop buffer fuel eh.next_extension_header_type.toU8
          (h.push_extension_header eh) (pos + ehPos)
    | .SuspendRes => do
        let (eh, ehPos) ← ExtensionHeader.parseFlat .SuspendRes (buffer.drop pos)
        parseExtLoop buffer fuel eh.next_extension_header_type.toU8
          (h.push_extension_header eh) (pos + ehPos)
    | .UDPPort => do
        let (eh, ehPos) ← ExtensionHeader.parseUdpPort (buffer.drop pos)
        parseExtLoop buffer fuel eh.next_extension_header_type.toU8
          (h.push_extension_header eh) (pos + ehPos)

/-- Embedding of `Header::parse`.  `Some (header, length field, bytes
consumed)` on success, `none` when the version or protocol-type check fails;
the message-type conversion and an unknown extension type byte panic. -/
def parse (buffer : List Nat) : Outcome (Option (Header × Nat × Nat)) := do
  let flags ← byteAt buffer 0
  let (version, pt, e, s, pn) := parse_flags flags
  if version ≠ 1 then
    return none
  else if pt ≠ 1 then
    return none
  else do
    let mtByte ← byteAt buffer 1
    let message_type ← MessageType.from_u8 mtByte
    let h := Header.new message_type
    let length ← readU16 buffer 2
    let teid ← readU32 buffer 4
    let h := { h with teid }
    let pos := 8
    let (h, pos) ←
      if s = 1 then do
        let sequence_number ← readU16 buffer pos
        pure ({ h with sequence_number, s := 1 }, pos + 2)
      else pure (h, pos)
    let (h, pos) ←
      if pn = 1 then do
        let n_pdu_number ← byteAt buffer pos
        pure ({ h with n_pdu_number, pn := 1 }, pos + 1)
      else pure (h, pos)
    if e = 1 then do
      let nextByte ← byteAt buffer pos
      let (h, pos) ← parseExtLoop buffer (buffer.length + 1) nextByte h (pos + 1)
      return some (h, length, pos)
    else
      return some (h, length, pos)

end Header

/-- GTPv1 messages as parsed by `Packet::parse`: the echo messages carry no
fields, a G-PDU carries its T-PDU bytes.  (`CreatePDPContextRequest` carries
IEs in the source; it is never produced by `Packet::parse`, which routes that
message type to the EchoResponse parser, so the IE list is not modelled.) -/
inductive Message where
  | EchoRequest
  | EchoResponse
  | CreatePDPContextRequest
  | GPDU (t_pdu : List Nat)
deriving DecidableEq, Repr

namespace Message

/-- Message `length()`: zero for the echo messages (src echo_request.rs /
echo_response.rs), the T-PDU byte count for a G-PDU (src g_pdu.rs converts
`t_pdu.len()` to u16 with an unwrap; T-PDUs here stay below 2^16). -/
def length : Message → Nat
  | .EchoRequest => 0
  | .EchoResponse => 0
  | .CreatePDPContextRequest => 0
  | .GPDU t_pdu => t_pdu.length

/-- Modelled from the spec: the associated function
`echo_request::Message::parse(buffer) -> Option<(Self, usize)>` called by v1
`Packet::parse` is absent from src (the file only has a stub trait method).
Per §4.4 and scenario S1 a v1 EchoRequest message is empty, so the parser
returns the empty message having consumed no bytes. -/
def echoRequestParse (_buffer : List Nat) : Outcome (Option (Message × Nat)) :=
  .ok (some (.EchoRequest, 0))

/-- Modelled from the spec: the associated function
`echo_response::Message::parse` called by v1 `Packet::parse` is absent from
src; as for EchoRequest the message is empty and consumes no bytes. -/
def echoResponseParse (_buffer : List Nat) : Outcome (Option (Message × Nat)) :=
  .ok (some (.EchoResponse, 0))

/-- Modelled from the spec: the associated function `g_pdu::Message::parse`
called by v1 `Packet::parse` is absent from src.  Per §4.4 (a message decoder
loops over the buffer until exhausted) and scenario S4, a G-PDU's T-PDU is the
entire remainder of the buffer, so parsing consumes all of it. -/
def gPduParse (buffer : List Nat) : Outcome (Option (Message × Nat)) :=
  .ok (some (.GPDU buffer, buffer.length))

end Message

/-- GTPv1 packet: a header plus the boxed message, src/gtp_v1/packet.rs. -/
structure Packet where
  header : Header
  message : Message
deriving DecidableEq, Repr

namespace Packet

/-- Embedding of v1 `Packet::parse`.  The header parse yields `(h, length,
pos)`; the matched message parser runs on `&buffer[pos..]` and yields
`(m, pos)` where the inner `pos` shadows the header's `pos`; the function
returns the packet together with that inner `pos` — the message byte count
only.  The `CreatePDPContextRequest` arm really calls
`echo_response::Message::parse`, as in the source. -/
def parse (buffer : List Nat) : Outcome (Option (Packet × Nat)) := do
  match ← Header.parse buffer with
  | none => return none
  | some (h, _length, pos) =>
    match h.message_type with
    | .EchoRequest =>
      match ← Message.echoRequestParse (buffer.drop pos) with
      | none => return none
      | some (m, pos) =>
          return some ({ header := h.set_payload_length m.length, message := m }, pos)
    | .EchoResponse =>
      match ← Message.echoResponseParse (buffer.drop pos) with
      | none => return none
      | some (m, pos) =>
          return some ({ header := h.set_payload_length m.length, message := m }, pos)
    | .CreatePDPContextRequest =>
      match ← Message.echoResponseParse (buffer.drop pos) with
      | none => return none
      | some (m, pos) =>
          return some ({ header := h.set_payload_length m.length, message := m }, pos)
    | .GPDU =>
      match ← Message.gPduParse (buffer.drop pos) with
      | none => return none
      | some (m, pos) =>
          return some ({ header := h.set_payload_length m.length, message := m }, pos)

end Packet

/-- Listener statistics counters, src/gtp_v1/listener_statistics.rs. -/
structure Statistics where
  rx_gtp : Nat
  rx_ignored_gtp : Nat
  rx_gtp_echo_request : Nat
  tx_gtp_echo_request : Nat
  tx_gtp_echo_response : Nat
  rx_gtp_echo_response : Nat
  tx_gtp : Nat
  rx_ip : Nat
  tx_ip : Nat
deriving DecidableEq, Repr

namespace Statistics

/-- Embedding of `Statistics::new`. -/
def new : Statistics :=
  { rx_gtp := 0, rx_ignored_gtp := 0, tx_gtp := 0, rx_gtp_echo_request := 0,
    tx_gtp_echo_request := 0, tx_gtp_echo_response := 0,
    rx_gtp_echo_response := 0, rx_ip := 0, tx_ip := 0 }

/-- Embedding of `rx_gtp_add` (the mutation; the returned counter value is the
updated field). -/
def rx_gtp_add (s : Statistics) (n : Nat) : Statistics :=
  { s with rx_gtp := s.rx_gtp + n }

/-- Embedding of `rx_ignored_gtp_add`. -/
def rx_ignored_gtp_add (s : Statistics) (n : Nat) : Statistics :=
  { s with rx_ignored_gtp := s.rx_ignored_gtp + n }

/-- Embedding of `rx_gtp_echo_request_add`. -/
def rx_gtp_echo_request_add (s : Statistics) (n : Nat) : Statistics :=
  { s with rx_gtp_echo_request := s.rx_gtp_echo_request + n }

/-- Embedding of `tx_gtp_echo_response_add`. -/
def tx_gtp_echo_response_add (s : Statistics) (n : Nat) : Statistics :=
  { s with tx_gtp_echo_response := s.tx_gtp_echo_response + n }

/-- Embedding of `tx_ip_add`. -/
def tx_ip_add (s : Statistics) (n : Nat) : Statistics :=
  { s with tx_ip := s.tx_ip + n }

end Statistics

namespace GtpListener

/-- One iteration of the `GtpListener::listen` loop,
src/gtp_v1/gtp_listener.rs, as its effect on the statistics cell.  `buffer`
is the received datagram, `sendOk` abstracts whether the EchoResponse
`send_to` succeeds, `innerIpv4Ok` whether `Ipv4Packet::new` accepts the
T-PDU, `txOk` whether the raw-IP `send_to` succeeds (socket and pnet calls
are external I/O).  On a parse failure the packet is dropped silently; a
parse panic aborts the thread and is outside this per-iteration model, as is
the `panic!` on transport-channel creation failure in the GPDU arm. -/
def listenStep (iTeid : Nat) (buffer : List Nat) (sendOk innerIpv4Ok txOk : Bool)
    (s : Statistics) : Statistics :=
  match Packet.parse buffer with
  | .ok (some (p, _pos)) =>
    if p.header.teid = iTeid then
      let s := s.rx_gtp_add 1
      match p.message with
      | .EchoRequest =>
        let s := s.rx_gtp_echo_request_add 1
        if sendOk then s.tx_gtp_echo_response_add 1 else s
      | .GPDU _ =>
        if innerIpv4Ok then
          if txOk then s.tx_ip_add 1 else s
        else s
      | _ => s
    else
      s.rx_ignored_gtp_add 1
  | _ => s

end GtpListener

/-- Decidable form of the extension-chain linking invariant: every interior
element's next-type octet names its successor's type and the tail's next-type
octet is NoMore. -/
def chainLinked : List ExtensionHeader → Bool
  | [] => true
  | [x] => x.next_extension_header_type == .NoMore
  | x :: y :: rest =>
    (x.next_extension_header_type == y.extension_header_type) && chainLinked (y :: rest)

/-- One client operation on a header's extension chain: push a freshly
`new()`-constructed extension header of the given kind, or pop. -/
inductive ChainOp where
  | push (k : ExtensionHeader.Kind)
  | pop
deriving DecidableEq, Repr

/-- Apply one chain operation. -/
def applyChainOp (h : Header) : ChainOp → Header
  | .push k => h.push_extension_header (ExtensionHeader.new k)
  | .pop => h.pop_extension_header.1

/-- Apply a sequence of chain operations left to right. -/
def applyChainOps (h : Header) : List ChainOp → Header
  | [] => h
  | op :: ops => applyChainOps (applyChainOp h op) ops

/-- Embedding of `Header::enable_sequence_number`. -/
def Header.enable_sequence_number (h : Header) : Header := { h with s := 1 }

/-- Embedding of `Header::disable_sequence_number`. -/
def Header.disable_sequence_number (h : Header) : Header := { h with s := 0 }

/-- Embedding of `Header::enable_n_pdu_number`. -/
def Header.enable_n_pdu_number (h : Header) : Header := { h with pn := 1 }

/-- Embedding of `Header::disable_n_pdu_number`. -/
def Header.disable_n_pdu_number (h : Header) : Header := { h with pn := 0 }

/-- A header in an arbitrary reachable state: a fresh header, any sequence of
extension-chain pushes and pops, the S and PN flags switched through their
enable/disable setters, and the payload length stamped. -/
def configuredHeader (mt : MessageType) (ops : List ChainOp) (sB pnB : Bool)
    (payload : Nat) : Header :=
  Header.set_payload_length
    ((if sB then Header.enable_sequence_number else Header.disable_sequence_number)
      ((if pnB then Header.enable_n_pdu_number else Header.disable_n_pdu_number)
        (applyChainOps (Header.new mt) ops)))
    payload

/-- Big-endian u16 value stored in octets 2 and 3 of a generated buffer — the
wire position of the v1 header length field. -/
def u16At2 (b : List Nat) : Nat := b.getD 2 0 * 256 + b.getD 3 0

/-- Buffer of spec scenario S4: a v1 G-PDU header with TEID 0x87654321 and
declared length 0x54, followed by an 84-byte inner packet. -/
def s4Buffer : List Nat :=
  [0x30, 0xFF, 0x00, 0x54, 0x87, 0x65, 0x43, 0x21] ++ List.replicate 84 0

/-- Header recovered from `s4Buffer` (payload length stamped from the
message). -/
def s4Header : Header :=
  { version := 1, message_type := .GPDU, pt := 1, e := 0, s := 0, pn := 0,
    teid := 0x87654321, payload_length := 84, sequence_number := 0,
    n_pdu_number := 0, extension_headers := [] }

/-- Packet recovered from `s4Buffer`. -/
def s4Packet : Packet := { header := s4Header, message := .GPDU (List.replicate 84 0) }

/-- An eight-byte v1 EchoRequest datagram with TEID 7, used to exercise one
listener-loop iteration. -/
def echoTeid7Buffer : List Nat := [0x30, 0x01, 0x00, 0x00, 0x00, 0x00, 0x00, 0x07]

/-- The header recovered from `echoTeid7Buffer`. -/
def echoTeid7Header : Header :=
  { version := 1, message_type := .EchoRequest, pt := 1, e := 0, s := 0,
    pn := 0, teid := 7, payload_length := 0, sequence_number := 0,
    n_pdu_number := 0, extension_headers := [] }

/-- The packet recovered from `echoTeid7Buffer`. -/
def echoTeid7Packet : Packet := { header := echoTeid7Header, message := .EchoRequest }

end GtpV1

namespace GtpV2

/-- The Bearer-QoS IE of spec scenario S7: QCI 7, PVI set, PCI clear, PL 9,
both maximum bitrates 10,000,000, both guaranteed bitrates 0, instance 0. -/
def s7BearerQoS : BearerQoS :=
  { inst := 0, pci := false, pl := 9, pvi := true, qci := 7,
    max_ul_bitrate := 10000000, max_dl_bitrate := 10000000,
    guaranteed_ul_bitrate := 0, guaranteed_dl_bitrate := 0 }

/-- Digit sequence of the IMSI "505013485090404" (spec scenario S5). -/
def s5Digits : List Nat := [5, 0, 5, 0, 1, 3, 4, 8, 5, 0, 9, 0, 4, 0, 4]

/-- The IMSI IE built from `s5Digits` with instance 0. -/
def s5Imsi : Imsi := { inst := 0, imsi := s5Digits }

/-- Wire form of the `s5Imsi` IE (spec scenario S5). -/
def s5Bytes : List Nat :=
  [0x01, 0x00, 0x08, 0x00, 0x05, 0x05, 0x31, 0x84, 0x05, 0x09, 0x04, 0xF4]

end GtpV2

/-! ## Claim theorems -/

/-- C1.  The claim says GTPv1 `Packet::parse` returns `None` on
unknown-discriminator input rather than panicking; in fact both `From<u8>`
conversions panic.  Evaluating the embedded code: a datagram whose
message-type octet is the unknown byte 3 makes `Packet::parse` panic, and a
header whose first extension-type octet is the unknown byte 0x45 makes
`Header::parse` panic — neither path returns `None`. -/
theorem C1_v1_parse_panics_on_unknown_discriminators :
    GtpV1.MessageType.from_u8 3 = .panicked ∧
    GtpV1.Packet.parse [0x30, 0x03, 0x00, 0x00, 0x00, 0x00, 0x00, 0x00] = .panicked ∧
    GtpV1.ExtensionHeaderType.from_u8 0x45 = .panicked ∧
    GtpV1.Header.parse [0x34, 0x01, 0x00, 0x01, 0x00, 0x00, 0x00, 0x00, 0x45] =
      .panicked := by
  decide

/-- C2.  The v2 `MessageType::try_from` catalog: bytes 1, 2 and 32 convert as
the claim states, but byte 33 converts to `CreateSessionRequest`, not to
`CreateSessionResponse` as the wire catalog requires. -/
theorem C2_v2_message_type_try_from_maps_33_to_request :
    GtpV2.MessageType.try_from 1 = .ok .EchoRequest ∧
    GtpV2.MessageType.try_from 2 = .ok .EchoResponse ∧
    GtpV2.MessageType.try_from 32 = .ok .CreateSessionRequest ∧
    GtpV2.MessageType.try_from 33 = .ok .CreateSessionRequest ∧
    GtpV2.MessageType.try_from 33 ≠ .ok .CreateSessionResponse ∧
    GtpV2.MessageType.CreateSessionResponse.toU8 = 33 := by
  decide

/-- C3.  On the spec-S4 G-PDU buffer the header parse consumes 8 bytes and the
message parse consumes the remaining 84, yet v1 `Packet::parse` returns 84 —
the inner message position that shadows the header position — and not the
total 92 bytes consumed. -/
theorem C3_v1_parse_returns_message_bytes_only :
    GtpV1.Header.parse GtpV1.s4Buffer =
      .ok (some ({ GtpV1.s4Header with payload_length := 0 }, 0x54, 8)) ∧
    GtpV1.Message.gPduParse (GtpV1.s4Buffer.drop 8) =
      .ok (some (.GPDU (List.replicate 84 0), 84)) ∧
    GtpV1.Packet.parse GtpV1.s4Buffer = .ok (some (GtpV1.s4Packet, 84)) ∧
    (84 : Nat) ≠ 8 + 84 := by
  decide

/-- C5.  The v2 IE-type conversion sends byte 75 to
`UserLocationInformation` — although the enum's own discriminant for `MEI` is
75 — so a byte-75 IE is dispatched to the ULI decoder, not the MEI decoder;
byte 86 also dispatches to the ULI decoder. -/
theorem C5_v2_ie_type_75_dispatches_to_uli :
    GtpV2.InformationElementType.try_from 75 = .ok .UserLocationInformation ∧
    GtpV2.InformationElementType.try_from 75 ≠ .ok .MEI ∧
    GtpV2.InformationElementType.MEI.toU8 = 75 ∧
    GtpV2.InformationElementType.try_from 86 = .ok .UserLocationInformation ∧
    GtpV2.InformationElement.parseDispatch [75] = .ok (.ok .UserLocationInformation) := by
  decide

/-- C8.  The v2 IMSI IE built from the digits of "505013485090404" with
instance 0 encodes to exactly the twelve bytes of spec scenario S5, and
parsing those bytes recovers the same fifteen digits (having consumed all
twelve bytes). -/
theorem C8_v2_imsi_s5_round_trip :
    GtpV2.Imsi.new GtpV2.s5Digits 0 = .ok GtpV2.s5Imsi ∧
    GtpV2.s5Imsi.generate = GtpV2.s5Bytes ∧
    GtpV2.Imsi.parse GtpV2.s5Bytes = .ok (some (GtpV2.s5Imsi, 12)) ∧
    GtpV2.s5Imsi.imsi = GtpV2.s5Digits := by
  decide

/-- C4 counterexample.  For the valid spec-S7 Bearer-QoS value (PCI=false,
PL=9, PVI=true) the generated flag octet is 0b01100100 — the spec's own S7
value — and not `PCI<<6 | PL<<2 | PVI` = 0b00100101 as the claim's formula
says; parsing the generated octet back yields (true, 9, false), negating pci
and pvi instead of returning them unchanged. -/
theorem C4_flag_octet_counterexample :
    GtpV2.BearerQoS.generate_flags GtpV2.s7BearerQoS = 0b01100100 ∧
    GtpV2.BearerQoS.generate_flags GtpV2.s7BearerQoS ≠
      ((if GtpV2.s7BearerQoS.pci then 1 else 0) <<< 6) |||
        (GtpV2.s7BearerQoS.pl <<< 2) |||
        (if GtpV2.s7BearerQoS.pvi then 1 else 0) ∧
    GtpV2.BearerQoS.parse_flags (GtpV2.BearerQoS.generate_flags GtpV2.s7BearerQoS) ≠
      (GtpV2.s7BearerQoS.pci, GtpV2.s7BearerQoS.pl, GtpV2.s7BearerQoS.pvi) := by
  decide

/-- C4 (amended).  For every Bearer-QoS IE with a valid priority level
(PL ≤ 15), `generate` writes the body flag octet as
`(1−PCI)<<6 | PL<<2 | (1−PVI)` — bit 6 is the negation of pci and bit 0 the
negation of pvi — and `parse` reads the bits back directly without undoing the
negation, so decode(encode(V)) returns pl unchanged but pci and pvi negated. -/
theorem C4_flag_octet_encode_and_roundtrip (v : GtpV2.BearerQoS) (hpl : v.pl ≤ 0xF) :
    GtpV2.BearerQoS.generate_flags v =
      ((1 - (if v.pci then 1 else 0)) <<< 6) ||| (v.pl <<< 2) |||
        (1 - (if v.pvi then 1 else 0)) ∧
    GtpV2.BearerQoS.parse_flags (GtpV2.BearerQoS.generate_flags v) =
      (!v.pci, v.pl, !v.pvi) := by
  obtain ⟨inst, pci, pl, pvi, qci, mu, md, gu, gd⟩ := v
  dsimp only [GtpV2.BearerQoS.generate_flags, GtpV2.BearerQoS.parse_flags] at *
  cases pci <;> cases pvi <;> interval_cases pl <;> decide

/-- C4 witness: the amended theorem applied to the spec-S7 Bearer-QoS value. -/
theorem C4_flag_octet_encode_and_roundtrip_witness :
    GtpV2.BearerQoS.generate_flags GtpV2.s7BearerQoS = 100 ∧
    GtpV2.BearerQoS.parse_flags (GtpV2.BearerQoS.generate_flags GtpV2.s7BearerQoS) =
      (true, 9, false) := by
  obtain ⟨h1, h2⟩ := C4_flag_octet_encode_and_roundtrip GtpV2.s7BearerQoS (by decide)
  exact ⟨h1.trans (by decide), h2.trans (by decide)⟩

/-- C10.  For the v2 IEs (IMSI and Bearer-QoS, the two cited `set_instance`
implementations): an instance above 15 is rejected with an error and the IE is
returned completely unchanged, while an instance of at most 15 is accepted,
`Ok(i)` is returned, and only the instance field changes. -/
theorem C10_set_instance_bounds (b : GtpV2.BearerQoS) (m : GtpV2.Imsi) (i : Nat) :
    (i > 15 →
      GtpV2.BearerQoS.set_instance b i = (b, .error s!"Instance is > 0xF {i}") ∧
      GtpV2.Imsi.set_instance m i = (m, .error s!"Instance is > 0xF {i}")) ∧
    (i ≤ 15 →
      GtpV2.BearerQoS.set_instance b i = ({ b with inst := i }, .ok i) ∧
      GtpV2.Imsi.set_instance m i = ({ m with inst := i }, .ok i)) := by
  constructor <;> intro hi
  · rw [GtpV2.BearerQoS.set_instance, GtpV2.Imsi.set_instance, if_pos hi, if_pos hi]
    exact ⟨rfl, rfl⟩
  · rw [GtpV2.BearerQoS.set_instance, GtpV2.Imsi.set_instance,
      if_neg (by omega), if_neg (by omega)]
    exact ⟨rfl, rfl⟩

/-- C10 witness: `set_instance` on sample IEs, rejected at 20 and accepted
at 5. -/
theorem C10_set_instance_bounds_witness :
    GtpV2.BearerQoS.set_instance GtpV2.s7BearerQoS 20 =
      (GtpV2.s7BearerQoS, .error s!"Instance is > 0xF {(20 : Nat)}") ∧
    GtpV2.Imsi.set_instance GtpV2.s5Imsi 5 =
      ({ GtpV2.s5Imsi with inst := 5 }, .ok 5) := by
  exact ⟨((C10_set_instance_bounds GtpV2.s7BearerQoS GtpV2.s5Imsi 20).1 (by decide)).1,
    ((C10_set_instance_bounds GtpV2.s7BearerQoS GtpV2.s5Imsi 5).2 (by decide)).2⟩

/-- C9.  For a listener-loop iteration whose received buffer parses to a
packet: when the packet's TEID differs from the configured inbound TEID,
exactly `rx_ignored_gtp` is incremented by one and every other counter is
unchanged (the post-state is the pre-state with only that field bumped); when
the TEID matches, `rx_gtp` is incremented by one and `rx_ignored_gtp` is
unchanged — whatever the message kind and whatever the send outcomes. -/
theorem C9_listener_teid_filter_counters (iTeid : Nat) (buffer : List Nat)
    (sendOk innerIpv4Ok txOk : Bool) (s : GtpV1.Statistics) (p : GtpV1.Packet) (n : Nat)
    (hp : GtpV1.Packet.parse buffer = .ok (some (p, n))) :
    (p.header.teid ≠ iTeid →
      GtpV1.GtpListener.listenStep iTeid buffer sendOk innerIpv4Ok txOk s =
        { s with rx_ignored_gtp := s.rx_ignored_gtp + 1 }) ∧
    (p.header.teid = iTeid →
      (GtpV1.GtpListener.listenStep iTeid buffer sendOk innerIpv4Ok txOk s).rx_gtp =
        s.rx_gtp + 1 ∧
      (GtpV1.GtpListener.listenStep iTeid buffer sendOk innerIpv4Ok txOk s).rx_ignored_gtp =
        s.rx_ignored_gtp) := by
  unfold GtpV1.GtpListener.listenStep
  rw [hp]
  dsimp only
  constructor
  · intro hne
    rw [if_neg hne]
    rfl
  · intro heq
    rw [if_pos heq]
    cases p.message <;> cases sendOk <;> cases innerIpv4Ok <;> cases txOk <;>
      simp [GtpV1.Statistics.rx_gtp_add, GtpV1.Statistics.rx_gtp_echo_request_add,
        GtpV1.Statistics.tx_gtp_echo_response_add, GtpV1.Statistics.tx_ip_add]

/-- C9 witness: one iteration on a parsed EchoRequest datagram with TEID 7,
once against inbound TEID 1 (ignored) and once against inbound TEID 7
(accepted). -/
theorem C9_listener_teid_filter_counters_witness :
    GtpV1.GtpListener.listenStep 1 GtpV1.echoTeid7Buffer true true true
      GtpV1.Statistics.new =
      { GtpV1.Statistics.new with
          rx_ignored_gtp := GtpV1.Statistics.new.rx_ignored_gtp + 1 } ∧
    (GtpV1.GtpListener.listenStep 7 GtpV1.echoTeid7Buffer true true true
        GtpV1.Statistics.new).rx_gtp = GtpV1.Statistics.new.rx_gtp + 1 ∧
    (GtpV1.GtpListener.listenStep 7 GtpV1.echoTeid7Buffer true true true
        GtpV1.Statistics.new).rx_ignored_gtp = GtpV1.Statistics.new.rx_ignored_gtp := by
  refine ⟨?_, ?_⟩
  · exact (C9_listener_teid_filter_counters 1 GtpV1.echoTeid7Buffer true true true
      GtpV1.Statistics.new GtpV1.echoTeid7Packet 0 (by decide)).1 (by decide)
  · exact (C9_listener_teid_filter_counters 7 GtpV1.echoTeid7Buffer true true true
      GtpV1.Statistics.new GtpV1.echoTeid7Packet 0 (by decide)).2 (by decide)

/-- Every extension header's octet count equals four times the raw value its
`generate` writes in the on-wire length field. -/
theorem extension_header_length_eq_four_mul_rawLen (e : GtpV1.ExtensionHeader) :
    e.length = 4 * e.rawLen := by
  cases e <;> simp [GtpV1.ExtensionHeader.length, GtpV1.ExtensionHeader.rawLen]

/-- Summing extension header octet counts is the same as summing four times
their raw length-field values. -/
theorem ext_chain_length_sum (xs : List GtpV1.ExtensionHeader) :
    (xs.map GtpV1.ExtensionHeader.length).sum =
      (xs.map (fun e => 4 * e.rawLen)).sum := by
  induction xs with
  | nil => rfl
  | cons x xs ih =>
      simp [ih, extension_header_length_eq_four_mul_rawLen x]

/-- Octets 2 and 3 of a generated v1 header hold the big-endian u16 image of
`Header::length`. -/
theorem u16At2_header_generate (h : GtpV1.Header) :
    GtpV1.u16At2 h.generate = h.length / 256 % 256 * 256 + h.length % 256 := by
  simp [GtpV1.Header.generate, GtpV1.u16At2, u16be, u32be, GtpV1.Header.generate_flags,
    List.getD]

/-- The payload-length field a configured header carries. -/
theorem configuredHeader_payload (mt : GtpV1.MessageType) (ops : List GtpV1.ChainOp)
    (sB pnB : Bool) (payload : Nat) :
    (GtpV1.configuredHeader mt ops sB pnB payload).payload_length = payload % 2 ^ 16 := by
  cases sB <;> cases pnB <;> rfl

/-- The S flag a configured header carries. -/
theorem configuredHeader_s (mt : GtpV1.MessageType) (ops : List GtpV1.ChainOp)
    (sB pnB : Bool) (payload : Nat) :
    (GtpV1.configuredHeader mt ops sB pnB payload).s = if sB then 1 else 0 := by
  cases sB <;> cases pnB <;> rfl

/-- The PN flag a configured header carries. -/
theorem configuredHeader_pn (mt : GtpV1.MessageType) (ops : List GtpV1.ChainOp)
    (sB pnB : Bool) (payload : Nat) :
    (GtpV1.configuredHeader mt ops sB pnB payload).pn = if pnB then 1 else 0 := by
  cases sB <;> cases pnB <;> rfl

/-- C6.  For every GTPv1 header state — any message type, any extension chain
built by pushes and pops, the S and PN flags switched either way, any
representable payload length — the u16 length field that `Header::generate`
writes at octets 2..3 equals
`payload_length + 2·[S] + 1·[PN] + 1·[E] + Σ 4·(raw length-field value)`,
whenever that sum is representable in sixteen bits. -/
theorem C6_header_length_field (mt : GtpV1.MessageType) (ops : List GtpV1.ChainOp)
    (sB pnB : Bool) (payload : Nat)
    (hpay : payload < 2 ^ 16)
    (hsum : payload + (if sB then 2 else 0) + (if pnB then 1 else 0) +
        (if (GtpV1.configuredHeader mt ops sB pnB payload).e = 1 then 1 else 0) +
        ((GtpV1.configuredHeader mt ops sB pnB payload).extension_headers.map
          (fun e => 4 * e.rawLen)).sum < 2 ^ 16) :
    GtpV1.u16At2 (GtpV1.configuredHeader mt ops sB pnB payload).generate =
      payload + (if sB then 2 else 0) + (if pnB then 1 else 0) +
        (if (GtpV1.configuredHeader mt ops sB pnB payload).e = 1 then 1 else 0) +
        ((GtpV1.configuredHeader mt ops sB pnB payload).extension_headers.map
          (fun e => 4 * e.rawLen)).sum := by
  have hlen : (GtpV1.configuredHeader mt ops sB pnB payload).length =
      payload + (if sB then 2 else 0) + (if pnB then 1 else 0) +
        (if (GtpV1.configuredHeader mt ops sB pnB payload).e = 1 then 1 else 0) +
        ((GtpV1.configuredHeader mt ops sB pnB payload).extension_headers.map
          (fun e => 4 * e.rawLen)).sum := by
    rw [GtpV1.Header.length, configuredHeader_payload, configuredHeader_s,
      configuredHeader_pn, Nat.mod_eq_of_lt hpay, ext_chain_length_sum]
    cases sB <;> cases pnB <;> simp
  rw [u16At2_header_generate, hlen]
  omega

/-- C6 witness: a header with two pushed extensions (a 4-octet PDCP PDU number
and an 8-octet long PDCP PDU number), S set, PN clear and payload length
0x100: the length field is 0x100 + 2 + 1 + (4·1 + 4·2) = 271. -/
theorem C6_header_length_field_witness :
    GtpV1.u16At2 (GtpV1.configuredHeader .GPDU
      [.push .PdcpPduNum, .push .LongPdcpPduNumber] true false 0x100).generate = 271 := by
  exact (C6_header_length_field .GPDU [.push .PdcpPduNum, .push .LongPdcpPduNumber]
    true false 0x100 (by decide) (by decide)).trans (by decide)

/-- Setting an extension header's next-type octet does not change its own
type. -/
theorem set_next_preserves_type (x : GtpV1.ExtensionHeader) (t : GtpV1.ExtensionHeaderType) :
    (x.set_next_extension_header_type t).extension_header_type = x.extension_header_type := by
  cases x <;> rfl

/-- Setting an extension header's next-type octet stores exactly that type. -/
theorem set_next_stores (x : GtpV1.ExtensionHeader) (t : GtpV1.ExtensionHeaderType) :
    (x.set_next_extension_header_type t).next_extension_header_type = t := by
  cases x <;> rfl

/-- Every `new()` extension header constructor starts with next-type NoMore. -/
theorem new_extension_next_noMore (k : GtpV1.ExtensionHeader.Kind) :
    (GtpV1.ExtensionHeader.new k).next_extension_header_type = .NoMore := by
  cases k <;> rfl

/-- Relinking the tail of a nonempty chain leaves the head's type unchanged
and the list nonempty. -/
theorem modifyLast_set_next_head (t : GtpV1.ExtensionHeaderType)
    (y : GtpV1.ExtensionHeader) (xs : List GtpV1.ExtensionHeader) :
    ∃ z zs,
      GtpV1.Header.modifyLast (fun v => v.set_next_extension_header_type t) (y :: xs) =
        z :: zs ∧ z.extension_header_type = y.extension_header_type := by
  cases xs with
  | nil => exact ⟨_, _, rfl, set_next_preserves_type y t⟩
  | cons a as => exact ⟨y, _, rfl, rfl⟩

/-- Pushing a fresh (next = NoMore) extension header onto a linked chain —
relink the old tail to the new element's type, then append — keeps the chain
linked. -/
theorem chainLinked_push (eh : GtpV1.ExtensionHeader)
    (hnext : eh.next_extension_header_type = .NoMore) :
    ∀ xs, GtpV1.chainLinked xs = true →
      GtpV1.chainLinked
        (GtpV1.Header.modifyLast
          (fun v => v.set_next_extension_header_type eh.extension_header_type) xs ++
            [eh]) = true
  | [], _ => by
      simp [GtpV1.Header.modifyLast, GtpV1.chainLinked, hnext]
  | [x], _ => by
      simp [GtpV1.Header.modifyLast, GtpV1.chainLinked, set_next_stores, hnext]
  | x :: y :: rest, hx => by
      rw [GtpV1.chainLinked] at hx
      obtain ⟨hx1, hx2⟩ := Bool.and_eq_true_iff.mp hx
      obtain ⟨z, zs, hzeq, hztype⟩ :=
        modifyLast_set_next_head eh.extension_header_type y rest
      have hrec := chainLinked_push eh hnext (y :: rest) hx2
      rw [hzeq] at hrec
      show GtpV1.chainLinked
        (GtpV1.Header.modifyLast _ (x :: y :: rest) ++ [eh]) = true
      rw [show GtpV1.Header.modifyLast
            (fun v => v.set_next_extension_header_type eh.extension_header_type)
            (x :: y :: rest) =
          x :: GtpV1.Header.modifyLast
            (fun v => v.set_next_extension_header_type eh.extension_header_type)
            (y :: rest) from rfl, hzeq]
      rw [List.cons_append, List.cons_append, GtpV1.chainLinked]
      rw [hztype]
      rw [List.cons_append] at hrec
      exact Bool.and_eq_true_iff.mpr ⟨hx1, hrec⟩

/-- Dropping the tail of a linked chain and pointing the new tail at NoMore
keeps the chain linked. -/
theorem chainLinked_dropLast :
    ∀ xs, GtpV1.chainLinked xs = true →
      GtpV1.chainLinked
        (GtpV1.Header.modifyLast
          (fun v => v.set_next_extension_header_type .NoMore) xs.dropLast) = true
  | [], _ => rfl
  | [_], _ => rfl
  | [x, _], _ => by
      simp [List.dropLast, GtpV1.Header.modifyLast, GtpV1.chainLinked, set_next_stores]
  | x :: y :: z :: rest, hx => by
      rw [GtpV1.chainLinked] at hx
      obtain ⟨hx1, hx2⟩ := Bool.and_eq_true_iff.mp hx
      have hrec := chainLinked_dropLast (y :: z :: rest) hx2
      obtain ⟨w, ws, hweq, hwtype⟩ :=
        modifyLast_set_next_head GtpV1.ExtensionHeaderType.NoMore y (z :: rest).dropLast
      rw [show (y :: z :: rest).dropLast = y :: (z :: rest).dropLast from rfl] at hrec
      rw [hweq] at hrec
      show GtpV1.chainLinked
        (GtpV1.Header.modifyLast _ ((x :: y :: z :: rest).dropLast)) = true
      rw [show (x :: y :: z :: rest).dropLast = x :: y :: (z :: rest).dropLast from rfl]
      rw [show GtpV1.Header.modifyLast
            (fun v => v.set_next_extension_header_type GtpV1.ExtensionHeaderType.NoMore)
            (x :: y :: (z :: rest).dropLast) =
          x :: GtpV1.Header.modifyLast
            (fun v => v.set_next_extension_header_type GtpV1.ExtensionHeaderType.NoMore)
            (y :: (z :: rest).dropLast) from rfl, hweq]
      rw [GtpV1.chainLinked, hwtype]
      exact Bool.and_eq_true_iff.mpr ⟨hx1, hrec⟩

/-- Relinking the tail never empties a chain. -/
theorem modifyLast_ne_nil (f : GtpV1.ExtensionHeader → GtpV1.ExtensionHeader)
    (xs : List GtpV1.ExtensionHeader) (hxs : xs ≠ []) :
    GtpV1.Header.modifyLast f xs ≠ [] := by
  cases xs with
  | nil => exact absurd rfl hxs
  | cons a as => cases as <;> simp [GtpV1.Header.modifyLast]

/-- One push or pop preserves the chain invariant: the chain stays linked and
the E flag stays equal to chain non-emptiness. -/
theorem applyChainOp_inv (h : GtpV1.Header) (op : GtpV1.ChainOp)
    (hc : GtpV1.chainLinked h.extension_headers = true)
    (he : h.e = 1 ↔ h.extension_headers ≠ []) :
    GtpV1.chainLinked (GtpV1.applyChainOp h op).extension_headers = true ∧
      ((GtpV1.applyChainOp h op).e = 1 ↔
        (GtpV1.applyChainOp h op).extension_headers ≠ []) := by
  cases op with
  | push k =>
    refine ⟨?_, ?_⟩
    · exact chainLinked_push (GtpV1.ExtensionHeader.new k)
        (new_extension_next_noMore k) h.extension_headers hc
    · simp [GtpV1.applyChainOp, GtpV1.Header.push_extension_header]
  | pop =>
    rw [GtpV1.applyChainOp, GtpV1.Header.pop_extension_header]
    cases hgl : h.extension_headers.getLast? with
    | none =>
      exact ⟨hc, he⟩
    | some tail =>
      have hne : h.extension_headers ≠ [] := by
        intro hnil
        rw [hnil] at hgl
        exact Option.noConfusion hgl
      dsimp only
      by_cases hr : h.extension_headers.dropLast.length > 0
      · rw [if_pos hr]
        refine ⟨chainLinked_dropLast h.extension_headers hc, ?_⟩
        have hdl : h.extension_headers.dropLast ≠ [] := by
          intro hnil
          rw [hnil] at hr
          exact absurd hr (by simp)
        simp only
        constructor
        · intro _
          exact modifyLast_ne_nil _ _ hdl
        · intro _
          exact he.mpr hne
      · rw [if_neg hr]
        have hdl : h.extension_headers.dropLast = [] := by
          cases hh : h.extension_headers.dropLast with
          | nil => rfl
          | cons a as => rw [hh] at hr; exact absurd (by simp) hr
        simp [hdl, GtpV1.chainLinked]
  
/-- Any sequence of chain operations preserves the chain invariant. -/
theorem applyChainOps_inv :
    ∀ (ops : List GtpV1.ChainOp) (h : GtpV1.Header),
      GtpV1.chainLinked h.extension_headers = true →
      (h.e = 1 ↔ h.extension_headers ≠ []) →
      GtpV1.chainLinked (GtpV1.applyChainOps h ops).extension_headers = true ∧
        ((GtpV1.applyChainOps h ops).e = 1 ↔
          (GtpV1.applyChainOps h ops).extension_headers ≠ [])
  | [], _, hc, he => ⟨hc, he⟩
  | op :: ops, h, hc, he =>
    applyChainOps_inv ops (GtpV1.applyChainOp h op)
      (applyChainOp_inv h op hc he).1 (applyChainOp_inv h op hc he).2

/-- C7.  After any sequence of `push_extension_header` /
`pop_extension_header` operations on a fresh GTPv1 header (pushing
`new()`-constructed extensions), the chain is linked — every interior
element's next-extension-header-type equals its successor's type and the tail
carries NoMore — and the E flag is 1 exactly when the chain is non-empty. -/
theorem C7_push_pop_chain_invariant (mt : GtpV1.MessageType) (ops : List GtpV1.ChainOp) :
    GtpV1.chainLinked (GtpV1.applyChainOps (GtpV1.Header.new mt) ops).extension_headers =
      true ∧
    ((GtpV1.applyChainOps (GtpV1.Header.new mt) ops).e = 1 ↔
      (GtpV1.applyChainOps (GtpV1.Header.new mt) ops).extension_headers ≠ []) :=
  applyChainOps_inv ops (GtpV1.Header.new mt) rfl (by simp [GtpV1.Header.new])
